import Mathlib

/-!
# Verification of the MB8600 HNAP exporter core

Shallow embedding of `src/mb8600.py` (an HNAP cable-modem telemetry
exporter feeding a ClickHouse sink) together with proofs of the
specification claims about it.

Conventions used throughout the embedding:
* Byte strings are `List Nat` with every byte reduced mod 256 where the
  source produces bytes; 32-bit words are `Nat` reduced mod 2^32 at every
  operation that can overflow.
* Python decimal string/number conversions (`int(...)`, `float(...)`) are
  embedded over `ℤ` / `ℚ` on the decimal fragment the modem produces;
  fallible conversions return `Option` (Python raises `ValueError` /
  `TypeError`).
* The system clock is an explicit argument wherever the source reads it
  (`time.time()`, `perf_counter()`, `datetime.datetime.now()`).
* The event-loop code (the poll loop of `MB8600.export` and the sink
  writer of `MB8600.insert_into_clickhouse`) is embedded as pure
  step functions over explicit state, emitting a trace of `Event`s;
  exceptions are `Except`/`Option` values handled exactly where the
  Python `try`/`except`/`finally` handles them.
-/

/-! ## 32-bit word helpers -/

/-- Bitwise complement on 32-bit words (operands are kept `< 2^32`). -/
def not32 (x : Nat) : Nat := 4294967295 ^^^ x

/-- Left rotation of a 32-bit word by `n` places. -/
def rotl32 (x n : Nat) : Nat := ((x <<< n) ||| (x >>> (32 - n))) % 4294967296

/-! ## MD5 (as used by Python's `hashlib.md5`) -/

/-- The MD5 per-round shift amounts. -/
def md5S : List Nat :=
  [7, 12, 17, 22, 7, 12, 17, 22, 7, 12, 17, 22, 7, 12, 17, 22,
   5, 9, 14, 20, 5, 9, 14, 20, 5, 9, 14, 20, 5, 9, 14, 20,
   4, 11, 16, 23, 4, 11, 16, 23, 4, 11, 16, 23, 4, 11, 16, 23,
   6, 10, 15, 21, 6, 10, 15, 21, 6, 10, 15, 21, 6, 10, 15, 21]

/-- The MD5 sine-derived round constants. -/
def md5K : List Nat :=
  [0xd76aa478, 0xe8c7b756, 0x242070db, 0xc1bdceee,
   0xf57c0faf, 0x4787c62a, 0xa8304613, 0xfd469501,
   0x698098d8, 0x8b44f7af, 0xffff5bb1, 0x895cd7be,
   0x6b901122, 0xfd987193, 0xa679438e, 0x49b40821,
   0xf61e2562, 0xc040b340, 0x265e5a51, 0xe9b6c7aa,
   0xd62f105d, 0x02441453, 0xd8a1e681, 0xe7d3fbc8,
   0x21e1cde6, 0xc33707d6, 0xf4d50d87, 0x455a14ed,
   0xa9e3e905, 0xfcefa3f8, 0x676f02d9, 0x8d2a4c8a,
   0xfffa3942, 0x8771f681, 0x6d9d6122, 0xfde5380c,
   0xa4beea44, 0x4bdecfa9, 0xf6bb4b60, 0xbebfbc70,
   0x289b7ec6, 0xeaa127fa, 0xd4ef3085, 0x04881d05,
   0xd9d4d039, 0xe6db99e5, 0x1fa27cf8, 0xc4ac5665,
   0xf4292244, 0x432aff97, 0xab9423a7, 0xfc93a039,
   0x655b59c3, 0x8f0ccc92, 0xffeff47d, 0x85845dd1,
   0x6fa87e4f, 0xfe2ce6e0, 0xa3014314, 0x4e0811a1,
   0xf7537e82, 0xbd3af235, 0x2ad7d2bb, 0xeb86d391]

/-- Running MD5 state: four 32-bit words. -/
structure MD5State where
  a : Nat
  b : Nat
  c : Nat
  d : Nat
deriving DecidableEq

/-- MD5 initial state. -/
def md5Init : MD5State := ⟨0x67452301, 0xefcdab89, 0x98badcfe, 0x10325476⟩

/-- Little-endian 32-bit word assembled from four chunk bytes. -/
def chunkWord (chunk : List Nat) (g : Nat) : Nat :=
  chunk.getD (4 * g) 0 + 256 * chunk.getD (4 * g + 1) 0 +
    65536 * chunk.getD (4 * g + 2) 0 + 16777216 * chunk.getD (4 * g + 3) 0

/-- One of the 64 MD5 rounds applied to the working state. -/
def md5Round (m : Nat → Nat) (st : MD5State) (i : Nat) : MD5State :=
  let f :=
    if i < 16 then (st.b &&& st.c) ||| (not32 st.b &&& st.d)
    else if i < 32 then (st.d &&& st.b) ||| (not32 st.d &&& st.c)
    else if i < 48 then st.b ^^^ st.c ^^^ st.d
    else st.c ^^^ (st.b ||| not32 st.d)
  let g :=
    if i < 16 then i
    else if i < 32 then (5 * i + 1) % 16
    else if i < 48 then (3 * i + 5) % 16
    else (7 * i) % 16
  let t := (f + st.a + md5K.getD i 0 + m g) % 4294967296
  { a := st.d, b := (st.b + rotl32 t (md5S.getD i 0)) % 4294967296, c := st.b, d := st.c }

/-- Process one 64-byte chunk. -/
def md5Chunk (st : MD5State) (chunk : List Nat) : MD5State :=
  let w := (List.range 64).foldl (md5Round (chunkWord chunk)) st
  { a := (st.a + w.a) % 4294967296, b := (st.b + w.b) % 4294967296,
    c := (st.c + w.c) % 4294967296, d := (st.d + w.d) % 4294967296 }

/-- Little-endian 64-bit length encoding used by MD5 padding. -/
def le64 (n : Nat) : List Nat :=
  [n % 256, n / 256 % 256, n / 65536 % 256, n / 16777216 % 256,
   n / 4294967296 % 256, n / 1099511627776 % 256,
   n / 281474976710656 % 256, n / 72057594037927936 % 256]

/-- MD5 padding: `0x80`, zeros to 56 mod 64, then the bit length (LE64). -/
def md5Pad (msg : List Nat) : List Nat :=
  msg ++ [0x80] ++ List.replicate ((119 - msg.length % 64) % 64) 0 ++
    le64 (msg.length * 8 % 18446744073709551616)

/-- Fold the chunk compression over a padded message.  Structural recursion
on a fuel bound (each step consumes 64 bytes, so `bs.length` steps are
always enough); this keeps the definition kernel-reducible. -/
def md5ProcessFuel : Nat → MD5State → List Nat → MD5State
  | 0, st, _ => st
  | fuel + 1, st, bs =>
      if bs.length < 64 then st
      else md5ProcessFuel fuel (md5Chunk st (bs.take 64)) (bs.drop 64)

/-- Fold the chunk compression over a padded message. -/
def md5Process (st : MD5State) (bs : List Nat) : MD5State :=
  md5ProcessFuel bs.length st bs

/-- Four little-endian bytes of a 32-bit word. -/
def wordBytesLE (w : Nat) : List Nat :=
  [w % 256, w / 256 % 256, w / 65536 % 256, w / 16777216 % 256]

/-- MD5 digest (16 bytes) of a byte string. -/
def md5 (msg : List Nat) : List Nat :=
  let st := md5Process md5Init (md5Pad msg)
  wordBytesLE st.a ++ wordBytesLE st.b ++ wordBytesLE st.c ++ wordBytesLE st.d

/-! ## HMAC-MD5 (as used by Python's `hmac.new(key, msg, hashlib.md5)`) -/

/-- HMAC-MD5 with the standard 64-byte block size. -/
def hmacMd5 (key msg : List Nat) : List Nat :=
  let k0 := if 64 < key.length then md5 key else key
  let k := k0 ++ List.replicate (64 - k0.length) 0
  md5 ((k.map fun b => b ^^^ 0x5c) ++ md5 ((k.map fun b => b ^^^ 0x36) ++ msg))

/-! ## Hex digests and string encoding -/

/-- The lowercase hex digits produced by `hexdigest()`. -/
def HEXLOWER : List Char := "0123456789abcdef".data

/-- One lowercase hex digit. -/
def hexDigit (n : Nat) : Char := HEXLOWER.getD n '0'

/-- Lowercase hex characters of a byte string (two per byte). -/
def bytesToHex : List Nat → List Char
  | [] => []
  | b :: bs => hexDigit (b / 16) :: hexDigit (b % 16) :: bytesToHex bs

/-- Embedding of `.hexdigest()`. -/
def hexdigest (bs : List Nat) : String := String.mk (bytesToHex bs)

/-- Embedding of `.hexdigest().upper()`. -/
def hexdigestUpper (bs : List Nat) : String :=
  String.mk ((bytesToHex bs).map Char.toUpper)

/-- UTF-8 encoding of one code point (embedding of Python `str.encode()`). -/
def utf8Bytes (c : Char) : List Nat :=
  let n := c.toNat
  if n < 128 then [n]
  else if n < 2048 then [192 ||| (n >>> 6), 128 ||| (n &&& 63)]
  else if n < 65536 then
    [224 ||| (n >>> 12), 128 ||| ((n >>> 6) &&& 63), 128 ||| (n &&& 63)]
  else
    [240 ||| (n >>> 18), 128 ||| ((n >>> 12) &&& 63),
     128 ||| ((n >>> 6) &&& 63), 128 ||| (n &&& 63)]

/-- UTF-8 bytes of a string (embedding of Python `str.encode()`). -/
def strBytes (s : String) : List Nat :=
  s.data.foldr (fun c acc => utf8Bytes c ++ acc) []

/-! ## Decimal rendering of naturals (Python integer formatting) -/

/-- The decimal digit characters. -/
def NUMERALS : List Char := "0123456789".data

/-- One decimal digit character. -/
def digitChar (n : Nat) : Char := NUMERALS.getD n '0'

/-- Decimal digits of `n`, least significant first. -/
def toDigitsRev (n : Nat) : List Char :=
  if n < 10 then [digitChar n]
  else digitChar (n % 10) :: toDigitsRev (n / 10)
termination_by n
decreasing_by exact Nat.div_lt_self (by omega) (by norm_num)

/-- Decimal rendering of a natural number (Python `f-string` of an `int`). -/
def decimalRepr (n : Nat) : String := String.mk (toDigitsRev n).reverse

/-! ## Python `int(...)` / `float(...)` on decimal strings

The modem emits plain decimal numerals; the embedding covers the decimal
fragment of Python's conversions (optional surrounding whitespace, optional
sign, digits, and for `float` an optional fractional part).  A failed
conversion (Python `ValueError`) is `none`. -/

/-- Numeric value of one decimal digit character. -/
def digitVal (c : Char) : Nat := c.toNat - 48

/-- Value of a digit string, most significant first. -/
def digitsVal (cs : List Char) : Nat :=
  cs.foldl (fun a c => a * 10 + digitVal c) 0

/-- Strip surrounding whitespace (Python conversions accept it). -/
def stripWs (cs : List Char) : List Char :=
  ((cs.dropWhile Char.isWhitespace).reverse.dropWhile Char.isWhitespace).reverse

/-- Signless/trimmed core of `int(...)`. -/
def pyIntCore : List Char → Option ℤ
  | [] => none
  | '-' :: rest =>
      if !rest.isEmpty && rest.all Char.isDigit then some (-(digitsVal rest : ℤ)) else none
  | '+' :: rest =>
      if !rest.isEmpty && rest.all Char.isDigit then some (digitsVal rest : ℤ) else none
  | cs =>
      if cs.all Char.isDigit then some (digitsVal cs : ℤ) else none

/-- Embedding of Python `int(s)` on decimal strings. -/
def pyInt (s : String) : Option ℤ := pyIntCore (stripWs s.data)

/-- Split a character list at the first dot. -/
def splitDot : List Char → List Char × Option (List Char)
  | [] => ([], none)
  | '.' :: rest => ([], some rest)
  | c :: rest =>
      let (a, b) := splitDot rest
      (c :: a, b)

/-- Signless core of `float(...)` over exact rationals. -/
def pyFloatCore (cs : List Char) : Option ℚ :=
  match splitDot cs with
  | (ip, none) =>
      if !ip.isEmpty && ip.all Char.isDigit then some (digitsVal ip : ℚ) else none
  | (ip, some fp) =>
      if (!ip.isEmpty || !fp.isEmpty) && ip.all Char.isDigit && fp.all Char.isDigit then
        some ((digitsVal ip : ℚ) + (digitsVal fp : ℚ) / (10 : ℚ) ^ fp.length)
      else none

/-- Sign handling of `float(...)`. -/
def pyFloatSigned : List Char → Option ℚ
  | '-' :: rest => (pyFloatCore rest).map fun q => -q
  | '+' :: rest => pyFloatCore rest
  | cs => pyFloatCore cs

/-- Embedding of Python `float(s)` on decimal strings, as an exact rational. -/
def pyFloat (s : String) : Option ℚ := pyFloatSigned (stripWs s.data)

/-! ## The uptime regular expression (`UPTIME_REGEX`, mb8600.py line 21)

`re.compile(r'(?:(\d+)\s*days\s*)?(?:(\d{2})h:)?(?:(\d{2})m:)?(?:(\d{2})s)?')`

Every group of the pattern is optional, so `.search(...)` always succeeds
at position 0 (possibly as an empty match) and never scans further; the
embedding therefore matches the four groups sequentially from the start of
the string.  Greedy matching coincides with maximal munch here because no
literal tail (`days`, `h:`, ...) can consume a digit or a space that the
preceding `\d+`/`\s*` took. -/

/-- Longest digit run at the head of the input, plus the rest. -/
def takeDigits : List Char → List Char × List Char
  | [] => ([], [])
  | c :: rest =>
      if c.isDigit then
        let (a, b) := takeDigits rest
        (c :: a, b)
      else ([], c :: rest)

/-- Drop leading whitespace (the `\s*` pieces of the pattern). -/
def skipWhitespace (cs : List Char) : List Char :=
  cs.dropWhile Char.isWhitespace

/-- Match a literal character sequence, returning the rest on success. -/
def matchLiteral : List Char → List Char → Option (List Char)
  | [], cs => some cs
  | _ :: _, [] => none
  | l :: ls, c :: cs => if c = l then matchLiteral ls cs else none

/-- The optional days group `(?:(\d+)\s*days\s*)?`: on failure the regex
engine consumes nothing. -/
def matchDaysGroup (cs : List Char) : Option String × List Char :=
  match takeDigits cs with
  | ([], _) => (none, cs)
  | (ds, rest) =>
      match matchLiteral ['d', 'a', 'y', 's'] (skipWhitespace rest) with
      | none => (none, cs)
      | some rest2 => (some (String.mk ds), skipWhitespace rest2)

/-- An optional two-digit group with a literal tail, e.g. `(?:(\d{2})h:)?`. -/
def matchTwoDigitGroup (tail cs : List Char) : Option String × List Char :=
  match cs with
  | c1 :: c2 :: rest =>
      if c1.isDigit && c2.isDigit then
        match matchLiteral tail rest with
        | some rest2 => (some (String.mk [c1, c2]), rest2)
        | none => (none, cs)
      else (none, cs)
  | _ => (none, cs)

/-- The four capture groups of `UPTIME_REGEX.search(s)` (a group that did
not participate in the match is `none`, Python's `None`). -/
structure UptimeGroups where
  days : Option String
  hours : Option String
  minutes : Option String
  seconds : Option String
deriving DecidableEq

/-- Embedding of `UPTIME_REGEX.search(s).groups()`. -/
def uptimeSearch (s : String) : UptimeGroups :=
  let (days, cs1) := matchDaysGroup s.data
  let (hours, cs2) := matchTwoDigitGroup ['h', ':'] cs1
  let (minutes, cs3) := matchTwoDigitGroup ['m', ':'] cs2
  let (seconds, _) := matchTwoDigitGroup ['s'] cs3
  ⟨days, hours, minutes, seconds⟩

/-- Python `int(group)` where `group` may be `None`: `int(None)` raises
`TypeError`, embedded as `none`. -/
def pyIntGroup : Option String → Option ℤ
  | none => none
  | some s => pyInt s

/-- The uptime accumulation of mb8600.py lines 400-410: each group is fed
to `int(...)` unconditionally and weighted into a seconds total. -/
def uptimeFromGroups (g : UptimeGroups) : Option ℤ :=
  match pyIntGroup g.days, pyIntGroup g.hours, pyIntGroup g.minutes, pyIntGroup g.seconds with
  | some d, some h, some m, some s => some (d * 86400 + h * 3600 + m * 60 + s)
  | _, _, _, _ => none

/-- The complete uptime parse of one `MotoConnSystemUpTime` string. -/
def parse_uptime (s : String) : Option ℤ := uptimeFromGroups (uptimeSearch s)

/-! ## Python `str.split(sep)` with a non-empty separator

The source splits the channel strings with `.split('|+|')` and
`.split('^')`.  Python's split with an explicit separator cuts at every
occurrence, keeps empty pieces, and returns `[s]` when the separator does
not occur.  The embedding is fuel-based structural recursion (each cut
consumes at least one character, so `length + 1` steps always suffice),
keeping it kernel-reducible. -/

/-- Does `sep` occur at the head of the input? -/
def sepIsHere : List Char → List Char → Bool
  | [], _ => true
  | _ :: _, [] => false
  | s :: ss, c :: cs => c == s && sepIsHere ss cs

/-- Split at the first occurrence of `sep`: the piece before it and the
rest after it, or `none` when `sep` does not occur. -/
def splitFirst (sep : List Char) : List Char → Option (List Char × List Char)
  | [] => none
  | c :: cs =>
      if sepIsHere sep (c :: cs) then some ([], (c :: cs).drop sep.length)
      else
        match splitFirst sep cs with
        | none => none
        | some (pre, post) => some (c :: pre, post)

/-- Fuel-bounded repeated splitting. -/
def pySplitFuel (sep : List Char) : Nat → List Char → List (List Char)
  | 0, cs => [cs]
  | fuel + 1, cs =>
      match splitFirst sep cs with
      | none => [cs]
      | some (pre, post) => pre :: pySplitFuel sep fuel post

/-- Embedding of Python `s.split(sep)` for a non-empty separator. -/
def pySplit (s sep : String) : List String :=
  (pySplitFuel sep.data (s.data.length + 1) s.data).map String.mk

/-! ## Channel telemetry parsing (mb8600.py lines 368-398)

A downstream channel segment has 10 caret-separated fields
`_, _, modulation, channel_id, frequency, power, snr, correcteds,
uncorrecteds, _`; an upstream segment has 8 fields
`_, _, modulation, channel_id, width, frequency, power, _`.
A field-count mismatch or a failing conversion raises in Python
(embedded as `none`).  One parsed segment is the tuple appended at lines
378-386 / 392-398 (each appended entry is that tuple wrapped in a
singleton list for ClickHouse nesting; the wrapper carries no data and is
dropped in the embedding). -/

/-- One parsed downstream channel tuple (field order of lines 378-386). -/
structure DownstreamChannel where
  channel_id : ℤ
  frequency : ℚ
  modulation : String
  power : ℚ
  snr : ℚ
  correcteds : ℤ
  uncorrecteds : ℤ
deriving DecidableEq

/-- One parsed upstream channel tuple (field order of lines 392-398). -/
structure UpstreamChannel where
  channel_id : ℤ
  frequency : ℚ
  modulation : String
  power : ℚ
  width : ℚ
deriving DecidableEq

/-- Parse the 10 fields of one downstream segment.  The SNR is converted
with `float(...)`; when the modulation is `"OFDM PLC"` and the value is
below `20.0` it is multiplied by `2.5` (the firmware-bug workaround of
lines 372-376; the walrus assignment makes the later `float(snr)` at line
383 the identity on the already-converted value). -/
def parseDownstreamFields (_f0 _f1 modulation channel_id frequency power snr correcteds
    uncorrecteds _f9 : String) : Option DownstreamChannel :=
  match pyFloat snr with
  | none => none
  | some snrRaw =>
      let snrVal :=
        if modulation = "OFDM PLC" then
          if snrRaw < 20 then snrRaw * (5 / 2 : ℚ) else snrRaw
        else snrRaw
      match pyInt channel_id, pyFloat frequency, pyFloat power, pyInt correcteds,
          pyInt uncorrecteds with
      | some cid, some freq, some pw, some co, some un =>
          some { channel_id := cid, frequency := freq * 1000000, modulation := modulation,
                 power := pw, snr := snrVal, correcteds := co, uncorrecteds := un }
      | _, _, _, _, _ => none

/-- Parse one downstream segment (tuple unpacking of line 371). -/
def parseDownstreamChannel (seg : String) : Option DownstreamChannel :=
  match pySplit seg "^" with
  | [f0, f1, modulation, channel_id, frequency, power, snr, correcteds, uncorrecteds, f9] =>
      parseDownstreamFields f0 f1 modulation channel_id frequency power snr correcteds
        uncorrecteds f9
  | _ => none

/-- Parse the 8 fields of one upstream segment (lines 391-398). -/
def parseUpstreamFields (_f0 _f1 modulation channel_id width frequency power _f7 : String) :
    Option UpstreamChannel :=
  match pyInt channel_id, pyFloat frequency, pyFloat power, pyFloat width with
  | some cid, some freq, some pw, some w =>
      some { channel_id := cid, frequency := freq * 1000000, modulation := modulation,
             power := pw, width := w * 1000 }
  | _, _, _, _ => none

/-- Parse one upstream segment (tuple unpacking of line 391). -/
def parseUpstreamChannel (seg : String) : Option UpstreamChannel :=
  match pySplit seg "^" with
  | [f0, f1, modulation, channel_id, width, frequency, power, f7] =>
      parseUpstreamFields f0 f1 modulation channel_id width frequency power f7
  | _ => none

/-- Parse every segment, failing if any single segment fails (the Python
`for` loop raises out of the cycle on the first bad segment). -/
def parseList {α : Type} (f : String → Option α) : List String → Option (List α)
  | [] => some []
  | x :: xs =>
      match f x, parseList f xs with
      | some y, some ys => some (y :: ys)
      | _, _ => none

/-- All downstream channels of one `MotoConnDownstreamChannel` string,
segments separated by the 3-character delimiter at line 370. -/
def parseDownstream (s : String) : Option (List DownstreamChannel) :=
  parseList parseDownstreamChannel (pySplit s "|+|")

/-- All upstream channels of one `MotoConnUpstreamChannel` string (line 390). -/
def parseUpstream (s : String) : Option (List UpstreamChannel) :=
  parseList parseUpstreamChannel (pySplit s "|+|")

/-! ## The status record (the row enqueued at lines 424-438) -/

/-- The parsed fields of the combined `GetMultipleHNAPs` response body that
the exporter reads (the JSON body is modelled already shape-checked; any
missing key raises in Python, which the cycle model covers with its
transport-failure input). -/
structure ModemResponse where
  result : String
  downstream : String
  upstream : String
  uptime : String
  config_filename : String
  software_version : String
deriving DecidableEq

/-- The row tuple built at lines 427-437. -/
structure StatusRecord where
  modem_name : String
  config_filename : String
  uptime : ℤ
  software_version : String
  modem_model : String
  downstream_channels : List DownstreamChannel
  upstream_channels : List UpstreamChannel
  scrape_latency : ℚ
  timestamp : ℚ
deriving DecidableEq

/-- Parse one successful response body into the enqueued row (lines
368-437): downstream channels, upstream channels, uptime, then the
constant-model tuple with the latency and timestamp computed earlier. -/
def parseStatusRecord (modem_name : String) (resp : ModemResponse)
    (scraping_latency timestamp : ℚ) : Option StatusRecord :=
  match parseDownstream resp.downstream, parseUpstream resp.upstream,
      parse_uptime resp.uptime with
  | some ds, some us, some up =>
      some { modem_name := modem_name, config_filename := resp.config_filename,
             uptime := up, software_version := resp.software_version,
             modem_model := "MB8600", downstream_channels := ds,
             upstream_channels := us, scrape_latency := scraping_latency,
             timestamp := timestamp }
  | _, _, _ => none

/-! ## HNAP authentication helpers (mb8600.py lines 138-187)

Each helper is pure given its inputs; `generate_hnap_auth` additionally
reads the wall clock, which the embedding passes in as `ms`, the value of
`int(time.time() * 1000)`. -/

/-- Embedding of `MB8600.generate_private_key` (lines 138-151):
`hmac.new(f'{public_key}{modem_password}'.encode(), challenge.encode(),
hashlib.md5).hexdigest().upper()`.  `modem_password` is the `self` field
read by the method. -/
def generate_private_key (modem_password public_key challenge : String) : String :=
  hexdigestUpper (hmacMd5 (strBytes (public_key ++ modem_password)) (strBytes challenge))

/-- Embedding of `MB8600.generate_login_password` (lines 153-166). -/
def generate_login_password (private_key challenge : String) : String :=
  hexdigestUpper (hmacMd5 (strBytes private_key) (strBytes challenge))

/-- The truncated millisecond timestamp of lines 173-174:
`math.floor(int(time.time() * 1000)) % 2000000000000`. -/
def hnapAuthTimestamp (ms : Nat) : Nat := ms % 2000000000000

/-- The fixed vendor action-URI base of line 176. -/
def soapActionBase : String := "http://purenetworks.com/HNAP1/"

/-- Embedding of `MB8600.generate_hnap_auth` (lines 168-187); the Python
default key argument is the literal `"withoutloginkey"`. -/
def generate_hnap_auth (soap_action private_key : String) (ms : Nat) : String :=
  let current_time := hnapAuthTimestamp ms
  let soap_action_uri := soapActionBase ++ soap_action
  let auth := hexdigestUpper (hmacMd5 (strBytes private_key)
    (strBytes (decimalRepr current_time ++ soap_action_uri)))
  auth ++ " " ++ decimalRepr current_time

/-! ## The poll loop (`MB8600.export`, lines 313-443)

The loop is embedded as a step function per cycle.  Network answers, the
outcome of a re-login, and the clock readings of a cycle are the cycle's
environment (`CycleEnv`); the mutable session dictionary and the
`modem_cookies` dictionary built once at line 323 are the loop state
(`ExportState`).  Each cycle emits a trace of `Event`s in program order.
The body of the `while` loop's `try` can raise (transport failure at the
`post` call, a raising `login()` at line 357, or a parse failure); the
`except` clause at line 439 and the `finally` clause at line 442 are the
handlers wrapped around it in `exportCycle`. -/

/-- The session dictionary `self.modem_hnap_session` as written by a
successful `login()` (lines 227-233). -/
structure HnapSession where
  challenge : String
  uid : String
  public_key : String
  private_key : String
  login_password : String
  hnap_auth : String
deriving DecidableEq

/-- Observable actions of one poll cycle, in program order. -/
inductive Event where
  | request (cookies : String × String) (hnap_auth : String)
  | logWarning
  | logInfo
  | loginCall (succeeded : Bool)
  | enqueue (record : StatusRecord)
  | logError
  | logCritical
  | stopSet
  | sleep (seconds : Nat)
deriving DecidableEq

/-- Exceptions that can escape the body of one poll cycle. -/
inductive PyErr where
  | transport
  | loginRaise
  | parseFail
deriving DecidableEq

/-- Outcome of one `login()` attempt.  `login()` does its session writes
in the middle of the method: the six `self.modem_hnap_session` fields are
assigned at lines 228-233, *after* the challenge request of lines 197-219
but *before* the login POST of lines 236-257.  So a raise has two distinct
state effects:
* `earlyFail`: the raise happened before line 228 (challenge POST, JSON
  decode, or key lookup failed) — the stored session is untouched;
* `lateFail newSession`: the raise happened at or after line 236 (login
  POST failed, or its `LoginResult` was not `"OK"`, line 257) — the stored
  session has already been fully replaced by the freshly derived values;
* `success newSession`: the login completed and the session holds the
  freshly derived values. -/
inductive LoginOutcome where
  | earlyFail
  | lateFail (newSession : HnapSession)
  | success (newSession : HnapSession)
deriving DecidableEq

/-- Environment of one poll cycle: the modem's answer (`none` = the HTTP
call raised), the outcome of the `login()` attempted when the result is
non-OK, and the clock readings the cycle takes (`auth_ms` at line 334,
`t_start` at line 331, `t_after` at line 362, `t_stamp` at line 366). -/
structure CycleEnv where
  response : Option ModemResponse
  loginResult : LoginOutcome
  auth_ms : Nat
  t_start : ℚ
  t_after : ℚ
  t_stamp : ℚ

/-- Poll-loop state: the session dictionary plus the `modem_cookies`
mapping `{uid, PrivateKey}` built once at line 323, before the loop. -/
structure ExportState where
  session : HnapSession
  cookies : String × String
deriving DecidableEq

/-- The `try` body of one poll cycle (lines 330-438): recompute the
`Hnap_auth` header from the *current* private key, post the combined
request with the fixed `modem_cookies`, then either handle a non-OK
result (warn, re-login, sleep, `continue`) or parse and enqueue.
Returns the events emitted before leaving the body, the state when the
body is left (exceptions do not roll the session dictionary back: a
re-login that raises after its session writes leaves the new session in
place), and either the enqueued rows or the exception that escaped. -/
def cycleBody (modem_name : String) (scrape_delay : Nat) (st : ExportState)
    (env : CycleEnv) : List Event × ExportState × Except PyErr (List StatusRecord) :=
  let auth := generate_hnap_auth "GetMultipleHNAPs" st.session.private_key env.auth_ms
  let reqEv := Event.request st.cookies auth
  match env.response with
  | none => ([reqEv], st, Except.error PyErr.transport)
  | some resp =>
      if resp.result = "OK" then
        match parseStatusRecord modem_name resp (env.t_after - env.t_start) env.t_stamp with
        | none => ([reqEv, Event.logInfo], st, Except.error PyErr.parseFail)
        | some record =>
            ([reqEv, Event.logInfo, Event.enqueue record], st, Except.ok [record])
      else
        match env.loginResult with
        | LoginOutcome.success newSession =>
            ([reqEv, Event.logWarning, Event.loginCall true, Event.sleep scrape_delay],
             { st with session := newSession }, Except.ok [])
        | LoginOutcome.earlyFail =>
            ([reqEv, Event.logWarning, Event.loginCall false], st,
             Except.error PyErr.loginRaise)
        | LoginOutcome.lateFail newSession =>
            ([reqEv, Event.logWarning, Event.loginCall false],
             { st with session := newSession }, Except.error PyErr.loginRaise)

/-- One full poll cycle: the `try` body wrapped in the `except` clause of
line 439 (log the error, sleep the interval) and the `finally` clause of
line 442 (always sleep the interval once more).  The state the body left
behind is kept either way — in particular a re-login that raised after
its session writes leaves the replaced session in place for the next
cycle. -/
def exportCycle (modem_name : String) (scrape_delay : Nat) (st : ExportState)
    (env : CycleEnv) : ExportState × List Event × List StatusRecord :=
  match cycleBody modem_name scrape_delay st env with
  | (evs, st2, Except.error _) =>
      (st2, evs ++ [Event.logError, Event.sleep scrape_delay, Event.sleep scrape_delay], [])
  | (evs, st2, Except.ok records) => (st2, evs ++ [Event.sleep scrape_delay], records)

/-- Run the poll loop over a list of cycle environments, concatenating
the traces and the enqueued rows. -/
def runCycles (modem_name : String) (scrape_delay : Nat) :
    ExportState → List CycleEnv → ExportState × List Event × List StatusRecord
  | st, [] => (st, [], [])
  | st, env :: envs =>
      let r1 := exportCycle modem_name scrape_delay st env
      let r2 := runCycles modem_name scrape_delay r1.1 envs
      (r2.1, r1.2.1 ++ r2.2.1, r1.2.2 ++ r2.2.2)

/-- Poll-loop startup (lines 313-327): the initial `login()`; on success
the loop state is built, with `modem_cookies` taken from the fresh session
dictionary; on any failure (early or late) the loop never starts. -/
def exportInit : LoginOutcome → Option ExportState
  | LoginOutcome.success s => some { session := s, cookies := (s.uid, s.private_key) }
  | LoginOutcome.earlyFail => none
  | LoginOutcome.lateFail _ => none

/-- The whole `export` task: a failed initial login logs critically, sets
the process-wide stop event and returns (lines 317-320); otherwise the
poll loop runs.  The boolean records whether the stop event was set. -/
def exportRun (modem_name : String) (scrape_delay : Nat)
    (initialLogin : LoginOutcome) (envs : List CycleEnv) :
    Bool × List Event × List StatusRecord :=
  match exportInit initialLogin with
  | none => (true, [Event.logCritical, Event.stopSet], [])
  | some st =>
      let r := runCycles modem_name scrape_delay st envs
      (false, r.2.1, r.2.2)

/-- Number of `login()` calls in a trace. -/
def isLoginEvent : Event → Bool
  | Event.loginCall _ => true
  | _ => false

/-- Number of `login()` calls in a trace. -/
def countLoginCalls (evs : List Event) : Nat := evs.countP isLoginEvent

/-- Queue-put events in a trace. -/
def isEnqueueEvent : Event → Bool
  | Event.enqueue _ => true
  | _ => false

/-- Number of queue puts in a trace. -/
def countEnqueues (evs : List Event) : Nat := evs.countP isEnqueueEvent

/-! ## The sink writer (`MB8600.insert_into_clickhouse`, lines 294-311)

An unbounded loop: dequeue one `(statement, rows)` item, submit it to
ClickHouse; on any failure log the error and sleep 5 seconds, then loop —
the failed item is gone from the queue and is never re-enqueued. -/

/-- A queued item: the insert statement of line 426 with its row list. -/
abbrev QItem := String × List StatusRecord

/-- The insert statement built at line 426. -/
def insertStatement (table : String) : String :=
  "INSERT INTO " ++ table ++
    " (modem_name, modem_config_filename, modem_uptime, modem_version, modem_model, downstream_channels, upstream_channels, scrape_latency, timestamp) VALUES"

/-- Observable actions of the sink writer. -/
inductive SinkEvent where
  | insert (item : QItem)
  | logError
  | sleep (seconds : Nat)
deriving DecidableEq

/-- One iteration of the writer loop on a non-empty queue: dequeue the
head; a successful `execute` emits the insert, a failing one emits the
error log and the fixed 5-second sleep.  Either way the head has left the
queue.  (On an empty queue `get()` blocks: no progress, no events.) -/
def insertIteration (queue : List QItem) (sinkOk : Bool) : List QItem × List SinkEvent :=
  match queue with
  | [] => ([], [])
  | item :: rest =>
      if sinkOk then (rest, [SinkEvent.insert item])
      else (rest, [SinkEvent.logError, SinkEvent.sleep 5])

/-- The writer loop run across a whole queue, each item's submission
outcome given by `sinkOk`. -/
def insertRun : List QItem → (QItem → Bool) → List SinkEvent
  | [], _ => []
  | item :: rest, sinkOk =>
      (insertIteration (item :: rest) (sinkOk item)).2 ++ insertRun rest sinkOk

/-! ## Output-format predicates and concrete sample inputs -/

/-- One character of the class `[0-9A-F]`. -/
def isHexUpperChar (c : Char) : Bool := c.isDigit || ('A' ≤ c && c ≤ 'F')

/-- Decidable check that a string matches the regular expression
`^[0-9A-F]{32} \d+$`: 32 uppercase hex characters, a single space, then a
non-empty run of digits reaching the end. -/
def matchesAuthFormat (s : String) : Bool :=
  match s.data.drop 32 with
  | ' ' :: ts =>
      ((s.data.take 32).length == 32) && (s.data.take 32).all isHexUpperChar &&
        !ts.isEmpty && ts.all Char.isDigit
  | _ => false

/-- A concrete session as `login()` would store it. -/
def sampleSession : HnapSession :=
  ⟨"chal0", "uid0", "pub0", "priv0", "lpw0", "auth0"⟩

/-- A second session, as a re-login would produce. -/
def sampleSession2 : HnapSession :=
  ⟨"chal1", "uid1", "pub1", "priv1", "lpw1", "auth1"⟩

/-- Poll-loop state after a startup with `sampleSession`. -/
def sampleState : ExportState := ⟨sampleSession, ("uid0", "priv0")⟩

/-- A combined response whose result field is not `"OK"`. -/
def sampleRespBad : ModemResponse := ⟨"UNAUTHORIZED", "", "", "", "", ""⟩

/-- A cycle in which the modem answers non-OK and the re-login succeeds. -/
def sampleEnvBad : CycleEnv :=
  ⟨some sampleRespBad, LoginOutcome.success sampleSession2, 1000, 0, 1, 2⟩

/-- A cycle in which the modem answers non-OK and the re-login raises at
its second POST, after the session writes of lines 228-233. -/
def sampleEnvLateFail : CycleEnv :=
  ⟨some sampleRespBad, LoginOutcome.lateFail sampleSession2, 1000, 0, 1, 2⟩

/-- A cycle in which the HTTP call itself raises. -/
def sampleEnvTransport : CycleEnv := ⟨none, LoginOutcome.earlyFail, 1000, 0, 1, 2⟩

/-- A raw downstream channel string with two segments. -/
def sampleDownstreamRaw : String :=
  "1^Locked^QAM256^1^549.0^3.0^40.0^10^2^|+|2^Locked^OFDM PLC^33^549.0^1.5^15.0^100^5^"

/-- A raw upstream channel string with two segments. -/
def sampleUpstreamRaw : String :=
  "1^Locked^SC-QAM^1^6.4^35.6^45.0^|+|2^Locked^SC-QAM^2^6.4^35.6^45.0^"

/-- A well-formed successful combined response. -/
def sampleRespOk : ModemResponse :=
  ⟨"OK", sampleDownstreamRaw, sampleUpstreamRaw, "5 days 03h:21m:09s", "config.cfg",
   "8600-19.3.18"⟩

/-- A successful cycle over `sampleRespOk` with clock readings 0, 1, 2. -/
def sampleEnvOk : CycleEnv := ⟨some sampleRespOk, LoginOutcome.earlyFail, 1000, 0, 1, 2⟩

/-- The row that `sampleRespOk` parses to (latency 1, timestamp 2). -/
def sampleRecord : StatusRecord :=
  ⟨"MB8600", "config.cfg", 444069, "8600-19.3.18", "MB8600",
   [⟨1, 549000000, "QAM256", 3, 40, 10, 2⟩,
    ⟨33, 549000000, "OFDM PLC", 3 / 2, 75 / 2, 100, 5⟩],
   [⟨1, 35600000, "SC-QAM", 45, 6400⟩, ⟨2, 35600000, "SC-QAM", 45, 6400⟩], 1, 2⟩

/-! ## Helper lemmas -/

/-- Any index yields a lowercase hex digit. -/
theorem hexDigit_mem (n : Nat) : hexDigit n ∈ HEXLOWER := by
  by_cases h : n < 16
  · interval_cases n <;> decide
  · unfold hexDigit
    rw [List.getD_eq_default _ _ (by rw [show HEXLOWER.length = 16 from rfl]; omega)]
    decide

/-- Hex encodings contain only lowercase hex digits. -/
theorem bytesToHex_mem (bs : List Nat) : ∀ c ∈ bytesToHex bs, c ∈ HEXLOWER := by
  induction bs with
  | nil => intro c hc; simp [bytesToHex] at hc
  | cons b bs ih =>
      intro c hc
      rw [bytesToHex] at hc
      rcases List.mem_cons.mp hc with rfl | hc
      · exact hexDigit_mem _
      rcases List.mem_cons.mp hc with rfl | hc
      · exact hexDigit_mem _
      · exact ih c hc

/-- Hex encoding yields two characters per byte. -/
theorem bytesToHex_length (bs : List Nat) : (bytesToHex bs).length = 2 * bs.length := by
  induction bs with
  | nil => rfl
  | cons b bs ih => rw [bytesToHex]; simp [ih]; omega

/-- MD5 digests are 16 bytes long. -/
theorem md5_length (msg : List Nat) : (md5 msg).length = 16 := by
  simp [md5, wordBytesLE]

/-- HMAC-MD5 digests are 16 bytes long. -/
theorem hmacMd5_length (key msg : List Nat) : (hmacMd5 key msg).length = 16 :=
  md5_length _

/-- Uppercasing a lowercase hex digit lands in `[0-9A-F]`. -/
theorem toUpper_hexLower (c : Char) (hc : c ∈ HEXLOWER) :
    isHexUpperChar c.toUpper = true := by
  fin_cases hc <;> decide

/-- Uppercase hex digests consist of `[0-9A-F]` characters only. -/
theorem hexdigestUpper_all (bs : List Nat) :
    (hexdigestUpper bs).data.all isHexUpperChar = true := by
  rw [List.all_eq_true]
  intro c hc
  rw [show (hexdigestUpper bs).data = (bytesToHex bs).map Char.toUpper from rfl,
    List.mem_map] at hc
  obtain ⟨c0, hc0, rfl⟩ := hc
  exact toUpper_hexLower c0 (bytesToHex_mem bs c0 hc0)

/-- Uppercase hex digests are twice as long as the digest. -/
theorem hexdigestUpper_length (bs : List Nat) :
    (hexdigestUpper bs).length = 2 * bs.length := by
  show ((bytesToHex bs).map Char.toUpper).length = 2 * bs.length
  rw [List.length_map, bytesToHex_length]

/-- Any index yields a decimal digit character. -/
theorem digitChar_isDigit (n : Nat) : (digitChar n).isDigit = true := by
  by_cases h : n < 10
  · interval_cases n <;> decide
  · unfold digitChar
    rw [List.getD_eq_default _ _ (by rw [show NUMERALS.length = 10 from rfl]; omega)]
    decide

/-- Decimal renderings contain only digit characters. -/
theorem toDigitsRev_digits (n : Nat) : ∀ c ∈ toDigitsRev n, c.isDigit = true := by
  induction n using Nat.strong_induction_on with
  | _ n ih =>
    intro c hc
    rw [toDigitsRev] at hc
    by_cases h : n < 10
    · rw [if_pos h] at hc
      simp at hc
      subst hc
      exact digitChar_isDigit n
    · rw [if_neg h] at hc
      rcases List.mem_cons.mp hc with rfl | hc
      · exact digitChar_isDigit _
      · exact ih (n / 10) (Nat.div_lt_self (by omega) (by norm_num)) c hc

/-- Decimal renderings are never empty. -/
theorem toDigitsRev_ne_nil (n : Nat) : toDigitsRev n ≠ [] := by
  rw [toDigitsRev]
  by_cases h : n < 10 <;> simp [h]

/-- `parseList` preserves the segment count. -/
theorem parseList_length {α : Type} (f : String → Option α) :
    ∀ (l : List String) (r : List α), parseList f l = some r → r.length = l.length := by
  intro l
  induction l with
  | nil =>
      intro r h
      rw [parseList] at h
      simp at h
      subst h
      rfl
  | cons x xs ih =>
      intro r h
      rw [parseList] at h
      cases hf : f x with
      | none => rw [hf] at h; simp at h
      | some y =>
          rw [hf] at h
          cases hp : parseList f xs with
          | none => rw [hp] at h; simp at h
          | some ys =>
              rw [hp] at h
              simp at h
              subst h
              simp [ih ys hp]

/-- Inversion of a successful status-record parse. -/
theorem parseStatusRecord_inv (modem_name : String) (resp : ModemResponse) (lat ts : ℚ)
    (rec : StatusRecord) (h : parseStatusRecord modem_name resp lat ts = some rec) :
    parseDownstream resp.downstream = some rec.downstream_channels
    ∧ parseUpstream resp.upstream = some rec.upstream_channels
    ∧ rec.timestamp = ts ∧ rec.scrape_latency = lat := by
  unfold parseStatusRecord at h
  cases hd : parseDownstream resp.downstream with
  | none => rw [hd] at h; simp at h
  | some ds =>
      rw [hd] at h
      cases hu : parseUpstream resp.upstream with
      | none => rw [hu] at h; simp at h
      | some us =>
          rw [hu] at h
          cases hup : parse_uptime resp.uptime with
          | none => rw [hup] at h; simp at h
          | some up =>
              rw [hup] at h
              simp at h
              subst h
              exact ⟨rfl, rfl, rfl, rfl⟩

/-- The `try` body never moves the `modem_cookies` mapping, on any path —
including the re-login paths that replace the session (successfully or by
raising after the session writes). -/
theorem cycleBody_cookies (modem_name : String) (scrape_delay : Nat) (st : ExportState)
    (env : CycleEnv) :
    (cycleBody modem_name scrape_delay st env).2.1.cookies = st.cookies := by
  obtain ⟨resp?, login?, ms, t0, t1, t2⟩ := env
  cases resp? with
  | none => rfl
  | some resp =>
      by_cases hok : resp.result = "OK"
      · cases hp : parseStatusRecord modem_name resp (t1 - t0) t2 with
        | none => simp [cycleBody, hok, hp]
        | some record => simp [cycleBody, hok, hp]
      · cases login? with
        | earlyFail => simp [cycleBody, hok]
        | lateFail ns => simp [cycleBody, hok]
        | success ns => simp [cycleBody, hok]

/-- The poll-loop state after one full cycle keeps the cookies of line 323. -/
theorem exportCycle_cookies (modem_name : String) (scrape_delay : Nat) (st : ExportState)
    (env : CycleEnv) : (exportCycle modem_name scrape_delay st env).1.cookies = st.cookies := by
  have h := cycleBody_cookies modem_name scrape_delay st env
  unfold exportCycle
  split
  all_goals (rename_i heq; rw [heq] at h; exact h)

/-- The poll-loop state after any number of cycles keeps the cookies. -/
theorem runCycles_cookies (modem_name : String) (scrape_delay : Nat) :
    ∀ (envs : List CycleEnv) (st : ExportState),
      (runCycles modem_name scrape_delay st envs).1.cookies = st.cookies := by
  intro envs
  induction envs with
  | nil => intro st; rfl
  | cons env envs ih =>
      intro st
      show (runCycles modem_name scrape_delay
        (exportCycle modem_name scrape_delay st env).1 envs).1.cookies = st.cookies
      exact (ih _).trans (exportCycle_cookies modem_name scrape_delay st env)

/-! ## Claim theorems -/

/-- C10: for all challenge/publicKey/devicePassword string triples,
`generate_private_key` is the uppercase hex encoding of HMAC-MD5 keyed by
`publicKey ++ devicePassword` over the challenge, `generate_login_password`
is the uppercase hex encoding of HMAC-MD5 keyed by the private key over the
challenge, and both (being functions of their inputs, hence deterministic)
always produce 32-character strings of `[0-9A-F]` characters. -/
theorem c10_key_derivation (modem_password public_key challenge private_key : String) :
    generate_private_key modem_password public_key challenge
        = hexdigestUpper (hmacMd5 (strBytes (public_key ++ modem_password)) (strBytes challenge))
    ∧ generate_login_password private_key challenge
        = hexdigestUpper (hmacMd5 (strBytes private_key) (strBytes challenge))
    ∧ (generate_private_key modem_password public_key challenge).length = 32
    ∧ (generate_private_key modem_password public_key challenge).data.all isHexUpperChar = true
    ∧ (generate_login_password private_key challenge).length = 32
    ∧ (generate_login_password private_key challenge).data.all isHexUpperChar = true := by
  refine ⟨rfl, rfl, ?_, hexdigestUpper_all _, ?_, hexdigestUpper_all _⟩
  · show (hexdigestUpper (hmacMd5 (strBytes (public_key ++ modem_password))
      (strBytes challenge))).length = 32
    rw [hexdigestUpper_length, hmacMd5_length]
  · show (hexdigestUpper (hmacMd5 (strBytes private_key) (strBytes challenge))).length = 32
    rw [hexdigestUpper_length, hmacMd5_length]

/-- C8 (amended): every `generate_hnap_auth` output matches
`^[0-9A-F]{32} \d+$`; the numeric suffix is the clock value in
milliseconds reduced modulo 2×10^12 and the hex part is the uppercase
HMAC-MD5 of `"{timestamp}{actionURI}"` under the key; and across calls in
increasing time order the suffix is non-decreasing *provided both
millisecond clock values are below 2×10^12* (the truncation wraps the
suffix to 0 at that bound, so the unrestricted claim fails; see the
counterexample). -/
theorem c8_auth_header_format (soap_action private_key : String) (ms1 ms2 : Nat)
    (h1 : ms1 ≤ ms2) (h2 : ms2 < 2000000000000) :
    matchesAuthFormat (generate_hnap_auth soap_action private_key ms1) = true
    ∧ generate_hnap_auth soap_action private_key ms1
        = hexdigestUpper (hmacMd5 (strBytes private_key)
            (strBytes (decimalRepr (hnapAuthTimestamp ms1) ++ (soapActionBase ++ soap_action))))
          ++ " " ++ decimalRepr (hnapAuthTimestamp ms1)
    ∧ hnapAuthTimestamp ms1 ≤ hnapAuthTimestamp ms2 := by
  refine ⟨?_, rfl, ?_⟩
  · have hlen : ((bytesToHex (hmacMd5 (strBytes private_key)
        (strBytes (decimalRepr (hnapAuthTimestamp ms1) ++
          (soapActionBase ++ soap_action))))).map Char.toUpper).length = 32 := by
      rw [List.length_map, bytesToHex_length, hmacMd5_length]
    have hdata : (generate_hnap_auth soap_action private_key ms1).data
        = ((bytesToHex (hmacMd5 (strBytes private_key)
            (strBytes (decimalRepr (hnapAuthTimestamp ms1) ++
              (soapActionBase ++ soap_action))))).map Char.toUpper)
          ++ ' ' :: (toDigitsRev (hnapAuthTimestamp ms1)).reverse := by
      show (hexdigestUpper _ ++ " " ++ decimalRepr _).data = _
      rw [String.data_append, String.data_append]
      rw [List.append_assoc]
      rfl
    unfold matchesAuthFormat
    rw [hdata, List.drop_left' hlen, List.take_left' hlen]
    simp only [hlen, beq_self_eq_true, Bool.true_and, Bool.and_eq_true]
    refine ⟨⟨?_, ?_⟩, ?_⟩
    · rw [List.all_eq_true]
      intro c hc
      rw [List.mem_map] at hc
      obtain ⟨c0, hc0, rfl⟩ := hc
      exact toUpper_hexLower c0 (bytesToHex_mem _ c0 hc0)
    · simp [List.isEmpty_iff, List.reverse_eq_nil_iff, toDigitsRev_ne_nil]
    · rw [List.all_eq_true]
      intro c hc
      rw [List.mem_reverse] at hc
      exact toDigitsRev_digits _ c hc
  · rw [hnapAuthTimestamp, hnapAuthTimestamp,
      Nat.mod_eq_of_lt (lt_of_le_of_lt h1 h2), Nat.mod_eq_of_lt h2]
    exact h1

/-- C8 counterexample: the numeric suffix of the auth header is *not*
non-decreasing across all calls in increasing time order: at the modulo
bound the truncated timestamp of the later call (clock 2×10^12 ms) is 0,
strictly below the suffix of the earlier call (clock 2×10^12 - 1 ms). -/
theorem c8_counterexample :
    1999999999999 < 2000000000000
    ∧ hnapAuthTimestamp 2000000000000 < hnapAuthTimestamp 1999999999999 := by
  constructor <;> decide

/-- C8 witness: the amended claim applied at the concrete action
`"GetMultipleHNAPs"`, key `"withoutloginkey"`, and clock values 1000 and
2000 milliseconds. -/
theorem c8_witness :
    matchesAuthFormat (generate_hnap_auth "GetMultipleHNAPs" "withoutloginkey" 1000) = true
    ∧ generate_hnap_auth "GetMultipleHNAPs" "withoutloginkey" 1000
        = hexdigestUpper (hmacMd5 (strBytes "withoutloginkey")
            (strBytes (decimalRepr (hnapAuthTimestamp 1000) ++
              (soapActionBase ++ "GetMultipleHNAPs"))))
          ++ " " ++ decimalRepr (hnapAuthTimestamp 1000)
    ∧ hnapAuthTimestamp 1000 ≤ hnapAuthTimestamp 2000 :=
  c8_auth_header_format "GetMultipleHNAPs" "withoutloginkey" 1000 2000 (by decide) (by decide)

/-- C1: the spec says a partially-missing uptime string such as
`"00h:05m:00s"` parses to 300 with missing groups treated as zero, and the
regex indeed makes every group optional — but lines 404-410 feed each
captured group to `int(...)` unconditionally, and `int(None)` raises
`TypeError`, so the parse fails (the cycle is aborted) whenever any group
is absent.  The theorem evaluates the embedded parser at the claim's own
inputs: the all-groups input parses to 444069 as claimed, the no-days
input fails instead of producing 300, even though its groups were captured
as `(None, "00", "05", "00")` exactly as the claim assumes. -/
theorem c1_uptime_eval :
    parse_uptime "5 days 03h:21m:09s" = some 444069
    ∧ parse_uptime "00h:05m:00s" = none
    ∧ uptimeSearch "00h:05m:00s" = ⟨none, some "00", some "05", some "00"⟩ := by
  refine ⟨by decide, by decide, by decide⟩

/-- C2: a poll cycle whose combined result is not `"OK"` performs exactly
one `login()` call (whether that login succeeds or itself raises), enqueues
no record, and sleeps the configured interval before the next cycle
(lines 354-360 plus the `finally` of line 442; the interval is in fact
slept twice on this path — once at line 359 and once in the `finally`). -/
theorem c2_reauth_single_login (modem_name : String) (scrape_delay : Nat)
    (st : ExportState) (env : CycleEnv) (resp : ModemResponse)
    (h1 : env.response = some resp) (h2 : resp.result ≠ "OK") :
    countLoginCalls (exportCycle modem_name scrape_delay st env).2.1 = 1
    ∧ (exportCycle modem_name scrape_delay st env).2.2 = []
    ∧ Event.sleep scrape_delay ∈ (exportCycle modem_name scrape_delay st env).2.1 := by
  obtain ⟨resp?, login?, ms, t0, t1, t2⟩ := env
  cases h1
  cases login? with
  | earlyFail =>
      refine ⟨?_, ?_, ?_⟩ <;>
        simp [exportCycle, cycleBody, h2, countLoginCalls, isLoginEvent, List.countP_cons]
  | lateFail ns =>
      refine ⟨?_, ?_, ?_⟩ <;>
        simp [exportCycle, cycleBody, h2, countLoginCalls, isLoginEvent, List.countP_cons]
  | success ns =>
      refine ⟨?_, ?_, ?_⟩ <;>
        simp [exportCycle, cycleBody, h2, countLoginCalls, isLoginEvent, List.countP_cons]

/-- C2 witness: the theorem applied to the concrete non-OK cycle
`sampleEnvBad` from state `sampleState` with a 10-second interval. -/
theorem c2_witness :
    countLoginCalls (exportCycle "MB8600" 10 sampleState sampleEnvBad).2.1 = 1
    ∧ (exportCycle "MB8600" 10 sampleState sampleEnvBad).2.2 = []
    ∧ Event.sleep 10 ∈ (exportCycle "MB8600" 10 sampleState sampleEnvBad).2.1 :=
  c2_reauth_single_login "MB8600" 10 sampleState sampleEnvBad sampleRespBad rfl (by decide)

/-- C3: the `modem_cookies` mapping is built once at line 323 and never
updated: after any number of poll cycles the state's cookie pair is still
the one built at startup; a non-OK cycle whose re-login succeeds replaces
the whole stored session (so later auth headers use the new private key —
the request event of every cycle carries an auth header computed from the
*current* session key) while the cookies sent on poll requests stay the
startup pair. -/
theorem c3_cookies_frozen (modem_name : String) (scrape_delay : Nat) (st : ExportState)
    (envs : List CycleEnv) (env : CycleEnv) (resp : ModemResponse) (ns : HnapSession)
    (h1 : env.response = some resp) (h2 : resp.result ≠ "OK")
    (h3 : env.loginResult = LoginOutcome.success ns) :
    (runCycles modem_name scrape_delay st envs).1.cookies = st.cookies
    ∧ Event.request st.cookies
        (generate_hnap_auth "GetMultipleHNAPs" st.session.private_key env.auth_ms)
        ∈ (exportCycle modem_name scrape_delay st env).2.1
    ∧ (exportCycle modem_name scrape_delay st env).1.session = ns
    ∧ (exportCycle modem_name scrape_delay st env).1.cookies = st.cookies := by
  obtain ⟨resp?, login?, ms, t0, t1, t2⟩ := env
  cases h1
  cases h3
  refine ⟨runCycles_cookies _ _ envs st, ?_, ?_, exportCycle_cookies _ _ _ _⟩ <;>
    simp [exportCycle, cycleBody, h2]

/-- C3 witness: the theorem applied to `sampleState`, a one-cycle run over
`sampleEnvOk`, and the non-OK cycle `sampleEnvBad` whose re-login stores
`sampleSession2`. -/
theorem c3_witness :
    (runCycles "MB8600" 10 sampleState [sampleEnvOk]).1.cookies = sampleState.cookies
    ∧ Event.request sampleState.cookies
        (generate_hnap_auth "GetMultipleHNAPs" sampleState.session.private_key
          sampleEnvBad.auth_ms)
        ∈ (exportCycle "MB8600" 10 sampleState sampleEnvBad).2.1
    ∧ (exportCycle "MB8600" 10 sampleState sampleEnvBad).1.session = sampleSession2
    ∧ (exportCycle "MB8600" 10 sampleState sampleEnvBad).1.cookies = sampleState.cookies :=
  c3_cookies_frozen "MB8600" 10 sampleState [sampleEnvOk] sampleEnvBad sampleRespBad
    sampleSession2 rfl (by decide) rfl

/-- C4: when the insert of a dequeued item fails, the sink writer logs the
failure and sleeps the fixed 5 seconds; the failed item has left the queue
and is not re-enqueued (the next iteration starts on `rest`); a successful
insert emits only the insert; the consumer loop continues to the next item
after either outcome; and across a whole run no item is delivered more
often than it occurred in the queue (at-most-once delivery per item). -/
theorem c4_sink_drop (item : QItem) (rest queue : List QItem) (sinkOk : QItem → Bool) :
    insertIteration (item :: rest) false = (rest, [SinkEvent.logError, SinkEvent.sleep 5])
    ∧ insertIteration (item :: rest) true = (rest, [SinkEvent.insert item])
    ∧ insertRun (item :: rest) sinkOk
        = (insertIteration (item :: rest) (sinkOk item)).2 ++ insertRun rest sinkOk
    ∧ (insertRun queue sinkOk).countP (fun e => e == SinkEvent.insert item)
        ≤ queue.count item := by
  refine ⟨rfl, rfl, rfl, ?_⟩
  induction queue with
  | nil => simp [insertRun]
  | cons x xs ih =>
      rw [insertRun, List.countP_append, List.count_cons]
      have hrun : ((insertIteration (x :: xs) (sinkOk x)).2.countP
          fun e => e == SinkEvent.insert item)
          = if x = item ∧ sinkOk x = true then 1 else 0 := by
        cases hx : sinkOk x
        · have hit : (insertIteration (x :: xs) false).2
              = [SinkEvent.logError, SinkEvent.sleep 5] := rfl
          rw [hit]
          have e1 : (SinkEvent.logError == SinkEvent.insert item) = false := rfl
          have e2 : (SinkEvent.sleep 5 == SinkEvent.insert item) = false := rfl
          simp [List.countP_cons, e1, e2]
        · have hit : (insertIteration (x :: xs) true).2 = [SinkEvent.insert x] := rfl
          rw [hit]
          by_cases hxi : x = item
          · subst hxi
            simp [List.countP_cons]
          · have e1 : (SinkEvent.insert x == SinkEvent.insert item) = false := by
              simp [hxi]
            simp [List.countP_cons, e1, hxi]
      rw [hrun]
      have hcnt : (if (x == item) = true then 1 else 0) = if x = item then 1 else 0 := by
        by_cases hxi : x = item <;> simp [hxi]
      rw [hcnt]
      by_cases hxi : x = item
      · subst hxi
        by_cases hx : sinkOk x = true <;> simp [hx] <;> omega
      · simp [hxi]
        omega

/-- C5: every error raised inside a poll cycle is caught at the cycle
boundary: whenever the cycle body terminates with an exception the full
cycle still returns normally, appending exactly the `except` handling
(error log, interval sleep) and the `finally` sleep to the body's events,
and enqueueing nothing — nothing propagates out of the cycle, and the
state the body left behind is kept (in particular a re-login that raised
after the session writes of lines 228-233 leaves the replaced session for
the next cycle; exceptions do not roll the session dictionary back).  The
one exception is a failing initial `login()` — early or late — which logs
critically, sets the process-wide stop event and terminates the poll loop
before any cycle runs. -/
theorem c5_error_boundary (modem_name : String) (scrape_delay : Nat)
    (envs : List CycleEnv) (ns : HnapSession) (st : ExportState) (env : CycleEnv)
    (evs : List Event) (st2 : ExportState) (err : PyErr)
    (h : cycleBody modem_name scrape_delay st env = (evs, st2, Except.error err)) :
    exportRun modem_name scrape_delay LoginOutcome.earlyFail envs
        = (true, [Event.logCritical, Event.stopSet], [])
    ∧ exportRun modem_name scrape_delay (LoginOutcome.lateFail ns) envs
        = (true, [Event.logCritical, Event.stopSet], [])
    ∧ exportCycle modem_name scrape_delay st env
        = (st2, evs ++ [Event.logError, Event.sleep scrape_delay, Event.sleep scrape_delay],
           []) := by
  refine ⟨rfl, rfl, ?_⟩
  unfold exportCycle
  rw [h]

/-- C5 witness: the theorem applied to the non-OK cycle
`sampleEnvLateFail`, whose re-login raises at its second POST after the
session writes: the error is caught, logged, both interval sleeps happen,
nothing is enqueued, and the resulting state carries the *replaced*
session `sampleSession2` with the startup cookies — plus an empty
environment list for the two failed-startup parts. -/
theorem c5_witness :
    exportRun "MB8600" 10 LoginOutcome.earlyFail []
        = (true, [Event.logCritical, Event.stopSet], [])
    ∧ exportRun "MB8600" 10 (LoginOutcome.lateFail sampleSession2) []
        = (true, [Event.logCritical, Event.stopSet], [])
    ∧ exportCycle "MB8600" 10 sampleState sampleEnvLateFail
        = ({ sampleState with session := sampleSession2 },
           [Event.request sampleState.cookies
              (generate_hnap_auth "GetMultipleHNAPs" sampleState.session.private_key
                sampleEnvLateFail.auth_ms),
            Event.logWarning, Event.loginCall false]
            ++ [Event.logError, Event.sleep 10, Event.sleep 10], []) :=
  c5_error_boundary "MB8600" 10 [] sampleSession2 sampleState sampleEnvLateFail
    [Event.request sampleState.cookies
       (generate_hnap_auth "GetMultipleHNAPs" sampleState.session.private_key
         sampleEnvLateFail.auth_ms),
     Event.logWarning, Event.loginCall false]
    { sampleState with session := sampleSession2 } PyErr.loginRaise rfl

/-- Inversion of a successful downstream-field parse: every conversion
succeeded and the output tuple is built from the converted values. -/
theorem parseDownstreamFields_inv (f0 f1 modulation channel_id frequency power snr
    correcteds uncorrecteds f9 : String) (ch : DownstreamChannel)
    (hp : parseDownstreamFields f0 f1 modulation channel_id frequency power snr correcteds
      uncorrecteds f9 = some ch) :
    ∃ (snrRaw freq pw : ℚ) (cid co un : ℤ),
      pyFloat snr = some snrRaw ∧ pyInt channel_id = some cid
      ∧ pyFloat frequency = some freq ∧ pyFloat power = some pw
      ∧ pyInt correcteds = some co ∧ pyInt uncorrecteds = some un
      ∧ ch = { channel_id := cid, frequency := freq * 1000000, modulation := modulation,
               power := pw,
               snr := if modulation = "OFDM PLC" then
                   if snrRaw < 20 then snrRaw * (5 / 2 : ℚ) else snrRaw
                 else snrRaw,
               correcteds := co, uncorrecteds := un } := by
  unfold parseDownstreamFields at hp
  cases hs : pyFloat snr with
  | none => rw [hs] at hp; simp at hp
  | some snrRaw =>
      rw [hs] at hp
      cases hcid : pyInt channel_id with
      | none => rw [hcid] at hp; simp at hp
      | some cid =>
          rw [hcid] at hp
          cases hfreq : pyFloat frequency with
          | none => rw [hfreq] at hp; simp at hp
          | some freq =>
              rw [hfreq] at hp
              cases hpw : pyFloat power with
              | none => rw [hpw] at hp; simp at hp
              | some pw =>
                  rw [hpw] at hp
                  cases hco : pyInt correcteds with
                  | none => rw [hco] at hp; simp at hp
                  | some co =>
                      rw [hco] at hp
                      cases hun : pyInt uncorrecteds with
                      | none => rw [hun] at hp; simp at hp
                      | some un =>
                          rw [hun] at hp
                          simp only [Option.some.injEq] at hp
                          exact ⟨snrRaw, freq, pw, cid, co, un, rfl, rfl, rfl, rfl, rfl,
                            rfl, hp.symm⟩

/-- Inversion of a successful upstream-field parse. -/
theorem parseUpstreamFields_inv (f0 f1 modulation channel_id width frequency power
    f7 : String) (ch : UpstreamChannel)
    (hp : parseUpstreamFields f0 f1 modulation channel_id width frequency power f7
      = some ch) :
    ∃ (freq pw w : ℚ) (cid : ℤ),
      pyInt channel_id = some cid ∧ pyFloat frequency = some freq
      ∧ pyFloat power = some pw ∧ pyFloat width = some w
      ∧ ch = { channel_id := cid, frequency := freq * 1000000, modulation := modulation,
               power := pw, width := w * 1000 } := by
  unfold parseUpstreamFields at hp
  cases hcid : pyInt channel_id with
  | none => rw [hcid] at hp; simp at hp
  | some cid =>
      rw [hcid] at hp
      cases hfreq : pyFloat frequency with
      | none => rw [hfreq] at hp; simp at hp
      | some freq =>
          rw [hfreq] at hp
          cases hpw : pyFloat power with
          | none => rw [hpw] at hp; simp at hp
          | some pw =>
              rw [hpw] at hp
              cases hw : pyFloat width with
              | none => rw [hw] at hp; simp at hp
              | some w =>
                  rw [hw] at hp
                  simp only [Option.some.injEq] at hp
                  exact ⟨freq, pw, w, cid, rfl, rfl, rfl, rfl, hp.symm⟩

/-- C6: for every successfully parsed downstream segment the output SNR is
the raw SNR times 2.5 exactly when the modulation is `"OFDM PLC"` and the
raw value is below 20.0, and the raw SNR unchanged in every other case. -/
theorem c6_snr_correction (f0 f1 modulation channel_id frequency power snr correcteds
    uncorrecteds f9 : String) (ch : DownstreamChannel) (raw : ℚ)
    (hsnr : pyFloat snr = some raw)
    (hp : parseDownstreamFields f0 f1 modulation channel_id frequency power snr correcteds
      uncorrecteds f9 = some ch) :
    ch.snr = if modulation = "OFDM PLC" ∧ raw < 20 then raw * (5 / 2 : ℚ) else raw := by
  obtain ⟨snrRaw, freq, pw, cid, co, un, hs, -, -, -, -, -, hch⟩ :=
    parseDownstreamFields_inv _ _ _ _ _ _ _ _ _ _ _ hp
  rw [hsnr] at hs
  rw [Option.some.injEq] at hs
  subst hs
  subst hch
  by_cases hm : modulation = "OFDM PLC" <;> by_cases hr : raw < 20 <;> simp [hm, hr]

/-- Concrete evaluation of `float("549.0")`. -/
theorem pyFloat_549 : pyFloat "549.0" = some 549 := by
  rw [show pyFloat "549.0" = some ((digitsVal ['5', '4', '9'] : ℚ)
    + (digitsVal ['0'] : ℚ) / 10 ^ (['0'] : List Char).length) from rfl]
  norm_num [show digitsVal ['5', '4', '9'] = 549 from by decide,
    show digitsVal ['0'] = 0 from by decide]

/-- Concrete evaluation of `float("3.0")`. -/
theorem pyFloat_3 : pyFloat "3.0" = some 3 := by
  rw [show pyFloat "3.0" = some ((digitsVal ['3'] : ℚ)
    + (digitsVal ['0'] : ℚ) / 10 ^ (['0'] : List Char).length) from rfl]
  norm_num [show digitsVal ['3'] = 3 from by decide,
    show digitsVal ['0'] = 0 from by decide]

/-- Concrete evaluation of `float("40.0")`. -/
theorem pyFloat_40 : pyFloat "40.0" = some 40 := by
  rw [show pyFloat "40.0" = some ((digitsVal ['4', '0'] : ℚ)
    + (digitsVal ['0'] : ℚ) / 10 ^ (['0'] : List Char).length) from rfl]
  norm_num [show digitsVal ['4', '0'] = 40 from by decide,
    show digitsVal ['0'] = 0 from by decide]

/-- Concrete evaluation of `float("1.5")`. -/
theorem pyFloat_1p5 : pyFloat "1.5" = some (3 / 2) := by
  rw [show pyFloat "1.5" = some ((digitsVal ['1'] : ℚ)
    + (digitsVal ['5'] : ℚ) / 10 ^ (['5'] : List Char).length) from rfl]
  norm_num [show digitsVal ['1'] = 1 from by decide,
    show digitsVal ['5'] = 5 from by decide]

/-- Concrete evaluation of `float("15.0")`. -/
theorem pyFloat_15 : pyFloat "15.0" = some 15 := by
  rw [show pyFloat "15.0" = some ((digitsVal ['1', '5'] : ℚ)
    + (digitsVal ['0'] : ℚ) / 10 ^ (['0'] : List Char).length) from rfl]
  norm_num [show digitsVal ['1', '5'] = 15 from by decide,
    show digitsVal ['0'] = 0 from by decide]

/-- Concrete evaluation of `float("25.0")`. -/
theorem pyFloat_25 : pyFloat "25.0" = some 25 := by
  rw [show pyFloat "25.0" = some ((digitsVal ['2', '5'] : ℚ)
    + (digitsVal ['0'] : ℚ) / 10 ^ (['0'] : List Char).length) from rfl]
  norm_num [show digitsVal ['2', '5'] = 25 from by decide,
    show digitsVal ['0'] = 0 from by decide]

/-- Concrete evaluation of `float("6.4")`. -/
theorem pyFloat_6p4 : pyFloat "6.4" = some (32 / 5) := by
  rw [show pyFloat "6.4" = some ((digitsVal ['6'] : ℚ)
    + (digitsVal ['4'] : ℚ) / 10 ^ (['4'] : List Char).length) from rfl]
  norm_num [show digitsVal ['6'] = 6 from by decide,
    show digitsVal ['4'] = 4 from by decide]

/-- Concrete evaluation of `float("35.6")`. -/
theorem pyFloat_35p6 : pyFloat "35.6" = some (178 / 5) := by
  rw [show pyFloat "35.6" = some ((digitsVal ['3', '5'] : ℚ)
    + (digitsVal ['6'] : ℚ) / 10 ^ (['6'] : List Char).length) from rfl]
  norm_num [show digitsVal ['3', '5'] = 35 from by decide,
    show digitsVal ['6'] = 6 from by decide]

/-- Concrete evaluation of `float("45.0")`. -/
theorem pyFloat_45 : pyFloat "45.0" = some 45 := by
  rw [show pyFloat "45.0" = some ((digitsVal ['4', '5'] : ℚ)
    + (digitsVal ['0'] : ℚ) / 10 ^ (['0'] : List Char).length) from rfl]
  norm_num [show digitsVal ['4', '5'] = 45 from by decide,
    show digitsVal ['0'] = 0 from by decide]

/-- Concrete evaluation of the `OFDM PLC` downstream sample segment. -/
theorem downSeg2_eval :
    parseDownstreamFields "2" "Locked" "OFDM PLC" "33" "549.0" "1.5" "15.0" "100" "5" ""
      = some ⟨33, 549000000, "OFDM PLC", 3 / 2, 75 / 2, 100, 5⟩ := by
  unfold parseDownstreamFields
  rw [pyFloat_15, pyFloat_549, pyFloat_1p5,
    show pyInt "33" = some 33 from by decide,
    show pyInt "100" = some 100 from by decide,
    show pyInt "5" = some 5 from by decide]
  norm_num

/-- Concrete evaluation of the `QAM256` downstream sample segment. -/
theorem downSeg1_eval :
    parseDownstreamFields "1" "Locked" "QAM256" "1" "549.0" "3.0" "40.0" "10" "2" ""
      = some ⟨1, 549000000, "QAM256", 3, 40, 10, 2⟩ := by
  unfold parseDownstreamFields
  rw [pyFloat_40, pyFloat_549, pyFloat_3,
    show pyInt "1" = some 1 from by decide,
    show pyInt "10" = some 10 from by decide,
    show pyInt "2" = some 2 from by decide]
  norm_num

/-- Concrete evaluation of a `QAM256` downstream segment with raw SNR 25. -/
theorem downSeg25_eval :
    parseDownstreamFields "1" "Locked" "QAM256" "1" "549.0" "3.0" "25.0" "10" "2" ""
      = some ⟨1, 549000000, "QAM256", 3, 25, 10, 2⟩ := by
  unfold parseDownstreamFields
  rw [pyFloat_25, pyFloat_549, pyFloat_3,
    show pyInt "1" = some 1 from by decide,
    show pyInt "10" = some 10 from by decide,
    show pyInt "2" = some 2 from by decide]
  norm_num

/-- C6 witness: the theorem applied to a concrete `OFDM PLC` segment with
raw SNR `15.0` (corrected to `37.5`) and a concrete `QAM256` segment with
raw SNR `25.0` (left unchanged). -/
theorem c6_witness :
    (DownstreamChannel.mk 33 549000000 "OFDM PLC" (3 / 2) (75 / 2) 100 5).snr
        = (if ("OFDM PLC" : String) = "OFDM PLC" ∧ (15 : ℚ) < 20
           then (15 : ℚ) * (5 / 2 : ℚ) else (15 : ℚ))
    ∧ (DownstreamChannel.mk 1 549000000 "QAM256" 3 25 10 2).snr
        = (if ("QAM256" : String) = "OFDM PLC" ∧ (25 : ℚ) < 20
           then (25 : ℚ) * (5 / 2 : ℚ) else (25 : ℚ)) :=
  ⟨c6_snr_correction "2" "Locked" "OFDM PLC" "33" "549.0" "1.5" "15.0" "100" "5" ""
      (DownstreamChannel.mk 33 549000000 "OFDM PLC" (3 / 2) (75 / 2) 100 5) 15
      pyFloat_15 downSeg2_eval,
   c6_snr_correction "1" "Locked" "QAM256" "1" "549.0" "3.0" "25.0" "10" "2" ""
      (DownstreamChannel.mk 1 549000000 "QAM256" 3 25 10 2) 25
      pyFloat_25 downSeg25_eval⟩

/-- Concrete evaluation of the first upstream sample segment. -/
theorem upSeg1_eval :
    parseUpstreamFields "1" "Locked" "SC-QAM" "1" "6.4" "35.6" "45.0" ""
      = some ⟨1, 35600000, "SC-QAM", 45, 6400⟩ := by
  unfold parseUpstreamFields
  rw [show pyInt "1" = some 1 from by decide, pyFloat_35p6, pyFloat_45, pyFloat_6p4]
  norm_num

/-- Concrete evaluation of the second upstream sample segment. -/
theorem upSeg2_eval :
    parseUpstreamFields "2" "Locked" "SC-QAM" "2" "6.4" "35.6" "45.0" ""
      = some ⟨2, 35600000, "SC-QAM", 45, 6400⟩ := by
  unfold parseUpstreamFields
  rw [show pyInt "2" = some 2 from by decide, pyFloat_35p6, pyFloat_45, pyFloat_6p4]
  norm_num

/-- Concrete evaluation of the first downstream sample segment string. -/
theorem downCh1_eval :
    parseDownstreamChannel "1^Locked^QAM256^1^549.0^3.0^40.0^10^2^"
      = some ⟨1, 549000000, "QAM256", 3, 40, 10, 2⟩ := by
  unfold parseDownstreamChannel
  rw [show pySplit "1^Locked^QAM256^1^549.0^3.0^40.0^10^2^" "^"
    = ["1", "Locked", "QAM256", "1", "549.0", "3.0", "40.0", "10", "2", ""] from by decide]
  exact downSeg1_eval

/-- Concrete evaluation of the second downstream sample segment string. -/
theorem downCh2_eval :
    parseDownstreamChannel "2^Locked^OFDM PLC^33^549.0^1.5^15.0^100^5^"
      = some ⟨33, 549000000, "OFDM PLC", 3 / 2, 75 / 2, 100, 5⟩ := by
  unfold parseDownstreamChannel
  rw [show pySplit "2^Locked^OFDM PLC^33^549.0^1.5^15.0^100^5^" "^"
    = ["2", "Locked", "OFDM PLC", "33", "549.0", "1.5", "15.0", "100", "5", ""] from by decide]
  exact downSeg2_eval

/-- Concrete evaluation of the first upstream sample segment string. -/
theorem upCh1_eval :
    parseUpstreamChannel "1^Locked^SC-QAM^1^6.4^35.6^45.0^"
      = some ⟨1, 35600000, "SC-QAM", 45, 6400⟩ := by
  unfold parseUpstreamChannel
  rw [show pySplit "1^Locked^SC-QAM^1^6.4^35.6^45.0^" "^"
    = ["1", "Locked", "SC-QAM", "1", "6.4", "35.6", "45.0", ""] from by decide]
  exact upSeg1_eval

/-- Concrete evaluation of the second upstream sample segment string. -/
theorem upCh2_eval :
    parseUpstreamChannel "2^Locked^SC-QAM^2^6.4^35.6^45.0^"
      = some ⟨2, 35600000, "SC-QAM", 45, 6400⟩ := by
  unfold parseUpstreamChannel
  rw [show pySplit "2^Locked^SC-QAM^2^6.4^35.6^45.0^" "^"
    = ["2", "Locked", "SC-QAM", "2", "6.4", "35.6", "45.0", ""] from by decide]
  exact upSeg2_eval

/-- Concrete evaluation of the whole downstream sample string. -/
theorem downstream_eval :
    parseDownstream sampleDownstreamRaw
      = some [⟨1, 549000000, "QAM256", 3, 40, 10, 2⟩,
              ⟨33, 549000000, "OFDM PLC", 3 / 2, 75 / 2, 100, 5⟩] := by
  unfold parseDownstream
  rw [show pySplit sampleDownstreamRaw "|+|"
    = ["1^Locked^QAM256^1^549.0^3.0^40.0^10^2^",
       "2^Locked^OFDM PLC^33^549.0^1.5^15.0^100^5^"] from by decide]
  simp [parseList, downCh1_eval, downCh2_eval]

/-- Concrete evaluation of the whole upstream sample string. -/
theorem upstream_eval :
    parseUpstream sampleUpstreamRaw
      = some [⟨1, 35600000, "SC-QAM", 45, 6400⟩, ⟨2, 35600000, "SC-QAM", 45, 6400⟩] := by
  unfold parseUpstream
  rw [show pySplit sampleUpstreamRaw "|+|"
    = ["1^Locked^SC-QAM^1^6.4^35.6^45.0^", "2^Locked^SC-QAM^2^6.4^35.6^45.0^"] from by decide]
  simp [parseList, upCh1_eval, upCh2_eval]

/-- Concrete evaluation of the whole sample status record. -/
theorem statusRecord_eval :
    parseStatusRecord "MB8600" sampleRespOk
      (sampleEnvOk.t_after - sampleEnvOk.t_start) sampleEnvOk.t_stamp
      = some sampleRecord := by
  unfold parseStatusRecord
  rw [show sampleRespOk.downstream = sampleDownstreamRaw from rfl,
    show sampleRespOk.upstream = sampleUpstreamRaw from rfl,
    show sampleRespOk.uptime = "5 days 03h:21m:09s" from rfl,
    downstream_eval, upstream_eval,
    show parse_uptime "5 days 03h:21m:09s" = some 444069 from by decide]
  norm_num [sampleRecord]
  refine ⟨rfl, rfl, ?_, rfl⟩
  norm_num [show sampleEnvOk.t_after = 1 from rfl, show sampleEnvOk.t_start = 0 from rfl,
    show sampleEnvOk.t_stamp = 2 from rfl]

/-- C7: a poll cycle whose combined request succeeds with an `"OK"` result
and parses enqueues exactly one record (both as the queue contents and as
the single enqueue event of the trace); its channel lists have exactly one
entry per delimiter-separated segment of the raw channel strings; and its
timestamp is the clock reading taken after the response arrived (line 366),
not the cycle-start reading — under clock monotonicity it lies between the
response arrival and the end of the cycle's wall-clock window. -/
theorem c7_success_enqueue (modem_name : String) (scrape_delay : Nat) (st : ExportState)
    (env : CycleEnv) (resp : ModemResponse) (rec : StatusRecord)
    (h1 : env.response = some resp) (h2 : resp.result = "OK")
    (h3 : parseStatusRecord modem_name resp (env.t_after - env.t_start) env.t_stamp
      = some rec)
    (h4 : env.t_start ≤ env.t_after) (h5 : env.t_after ≤ env.t_stamp) :
    (exportCycle modem_name scrape_delay st env).2.2 = [rec]
    ∧ countEnqueues (exportCycle modem_name scrape_delay st env).2.1 = 1
    ∧ rec.downstream_channels.length = (pySplit resp.downstream "|+|").length
    ∧ rec.upstream_channels.length = (pySplit resp.upstream "|+|").length
    ∧ rec.timestamp = env.t_stamp
    ∧ env.t_start ≤ rec.timestamp ∧ env.t_after ≤ rec.timestamp := by
  obtain ⟨hds, hus, hts, -⟩ := parseStatusRecord_inv _ _ _ _ _ h3
  obtain ⟨resp?, login?, ms, t0, t1, t2⟩ := env
  cases h1
  refine ⟨?_, ?_, ?_, ?_, hts, ?_, ?_⟩
  · simp [exportCycle, cycleBody, h2, h3]
  · simp [exportCycle, cycleBody, h2, h3, countEnqueues, isEnqueueEvent, List.countP_cons]
  · exact parseList_length _ _ _ hds
  · exact parseList_length _ _ _ hus
  · rw [hts]
    exact le_trans h4 h5
  · rw [hts]
    exact h5

/-- C7 witness: the theorem applied to the concrete successful cycle
`sampleEnvOk` (clock readings 0, 1, 2), whose response parses to
`sampleRecord`. -/
theorem c7_witness :
    (exportCycle "MB8600" 10 sampleState sampleEnvOk).2.2 = [sampleRecord]
    ∧ countEnqueues (exportCycle "MB8600" 10 sampleState sampleEnvOk).2.1 = 1
    ∧ sampleRecord.downstream_channels.length
        = (pySplit sampleRespOk.downstream "|+|").length
    ∧ sampleRecord.upstream_channels.length
        = (pySplit sampleRespOk.upstream "|+|").length
    ∧ sampleRecord.timestamp = sampleEnvOk.t_stamp
    ∧ sampleEnvOk.t_start ≤ sampleRecord.timestamp
    ∧ sampleEnvOk.t_after ≤ sampleRecord.timestamp :=
  c7_success_enqueue "MB8600" 10 sampleState sampleEnvOk sampleRespOk sampleRecord
    rfl rfl statusRecord_eval (by norm_num [sampleEnvOk]) (by norm_num [sampleEnvOk])

/-- C9: for every successfully parsed downstream and upstream segment the
output frequency is the raw MHz value times 1,000,000, while the upstream
width is the raw MHz value times 1,000 — two deliberately distinct
conversion factors. -/
theorem c9_unit_conversions (f0 f1 dmod dcid dfreq dpow dsnr dco dun f9
    g0 g1 umod ucid uwidth ufreq upow g7 : String)
    (dch : DownstreamChannel) (uch : UpstreamChannel) (dfq ufq uw : ℚ)
    (h1 : pyFloat dfreq = some dfq)
    (h2 : parseDownstreamFields f0 f1 dmod dcid dfreq dpow dsnr dco dun f9 = some dch)
    (h3 : pyFloat ufreq = some ufq) (h4 : pyFloat uwidth = some uw)
    (h5 : parseUpstreamFields g0 g1 umod ucid uwidth ufreq upow g7 = some uch) :
    dch.frequency = dfq * 1000000 ∧ uch.frequency = ufq * 1000000
    ∧ uch.width = uw * 1000 := by
  obtain ⟨snrRaw, freq, pw, cid, co, un, -, -, hf, -, -, -, hch⟩ :=
    parseDownstreamFields_inv _ _ _ _ _ _ _ _ _ _ _ h2
  obtain ⟨ufreq2, upw, w, ucid2, -, huf, -, hw, huch⟩ :=
    parseUpstreamFields_inv _ _ _ _ _ _ _ _ _ h5
  rw [h1, Option.some.injEq] at hf
  rw [h3, Option.some.injEq] at huf
  rw [h4, Option.some.injEq] at hw
  subst hf
  subst huf
  subst hw
  subst hch
  subst huch
  exact ⟨rfl, rfl, rfl⟩

/-- C9 witness: the theorem applied to the concrete segments with
downstream/upstream frequency `"549.0"`/`"35.6"` MHz and upstream width
`"6.4"` MHz: the frequencies convert with factor 1,000,000 and the width
with factor 1,000 (`6400.0`). -/
theorem c9_witness :
    (DownstreamChannel.mk 1 549000000 "QAM256" 3 40 10 2).frequency = 549 * 1000000
    ∧ (UpstreamChannel.mk 1 35600000 "SC-QAM" 45 6400).frequency = (178 / 5) * 1000000
    ∧ (UpstreamChannel.mk 1 35600000 "SC-QAM" 45 6400).width = (32 / 5) * 1000 :=
  c9_unit_conversions "1" "Locked" "QAM256" "1" "549.0" "3.0" "40.0" "10" "2" ""
    "1" "Locked" "SC-QAM" "1" "6.4" "35.6" "45.0" ""
    (DownstreamChannel.mk 1 549000000 "QAM256" 3 40 10 2)
    (UpstreamChannel.mk 1 35600000 "SC-QAM" 45 6400) 549 (178 / 5) (32 / 5)
    pyFloat_549 downSeg1_eval pyFloat_35p6 pyFloat_6p4 upSeg1_eval
